import Mathlib

set_option linter.unusedVariables false
set_option linter.unreachableTactic false
set_option linter.unusedTactic false

/- Shallow embedding of the branson_dd distributed particle-passing transport
   step (src/branson_dd/src/transport_particle_pass.h): the single-photon
   tracker `transport_photon_particle_pass` and the driver
   `transport_particle_pass` with its binary-tree termination protocol.
   Machine doubles are modelled by rationals; the transcendental functions
   (log, exp) and the RNG stream are abstract parameters, since no claim
   depends on their values.  Classes that the header uses but whose sources
   are not part of the examined tree (buffer.h, photon.h, mesh.h,
   constants.h, the Source class) are modelled from the spec, each marked so
   in its doc comment. -/

namespace Branson

/-- Pointwise update of a function out of ℕ, used to model indexed writes
into C++ vectors and maps. -/
def upd {α : Type} (f : ℕ → α) (i : ℕ) (v : α) : ℕ → α :=
  fun j => if j = i then v else f j

/-- Event type returned by the tracker.  Modelled from the spec: constants.h
is not among the examined sources; the members are those the transport header
uses (KILL, EXIT, CENSUS, PASS, WAIT). -/
inductive EventType
  | KILL
  | EXIT
  | CENSUS
  | PASS
  | WAIT
deriving DecidableEq

/-- Boundary-condition tag of a cell face.  Modelled from the spec:
constants.h is not among the examined sources; tags per §3 of the spec. -/
inductive BcType
  | VACUUM
  | REFLECT
  | ELEMENT
  | PROCESSOR
deriving DecidableEq

/-- A 3-vector of rationals, modelling a double[3]. -/
structure Vec3 where
  x : ℚ
  y : ℚ
  z : ℚ
deriving DecidableEq

/-- Modelled from the spec: the Photon class of photon.h (not among the
examined sources).  Fields per the particle wire record of §6: global cell
id, position, direction, remaining energy E, initial energy E0,
distance-remaining-to-census, census flag, alive flag. -/
structure Photon where
  cell : ℕ
  pos : Vec3
  angle : Vec3
  E : ℚ
  E0 : ℚ
  distance_remaining : ℚ
  census_flag : Bool
  alive : Bool
deriving DecidableEq

/-- Modelled from the spec §4.2 step 5: advance the position by d along the
direction and decrement the distance remaining by d. -/
def Photon.move (p : Photon) (d : ℚ) : Photon :=
  { p with
    pos := ⟨p.pos.x + d * p.angle.x, p.pos.y + d * p.angle.y,
            p.pos.z + d * p.angle.z⟩
    distance_remaining := p.distance_remaining - d }

/-- Modelled from the spec §4.2 step 6: the photon is below the
Russian-roulette cutoff when E < cutoff_fraction · E_initial. -/
def Photon.below_cutoff (p : Photon) (cf : ℚ) : Bool :=
  decide (p.E < cf * p.E0)

/-- Modelled from the spec: mark the particle dead (alive flag cleared). -/
def Photon.set_dead (p : Photon) : Photon := { p with alive := false }

def Photon.set_cell (p : Photon) (c : ℕ) : Photon := { p with cell := c }

def Photon.set_angle (p : Photon) (a : Vec3) : Photon := { p with angle := a }

def Photon.set_census_flag (p : Photon) (b : Bool) : Photon :=
  { p with census_flag := b }

def Photon.set_distance_to_census (p : Photon) (d : ℚ) : Photon :=
  { p with distance_remaining := d }

/-- Modelled from the spec §4.2: REFLECT mirrors the direction component
normal to the crossed face; faces pair up by axis (face / 2). -/
def Photon.reflect (p : Photon) (face : ℕ) : Photon :=
  { p with angle :=
      if face / 2 = 0 then ⟨-p.angle.x, p.angle.y, p.angle.z⟩
      else if face / 2 = 1 then ⟨p.angle.x, -p.angle.y, p.angle.z⟩
      else ⟨p.angle.x, p.angle.y, -p.angle.z⟩ }

/-- Modelled from the spec §3 and §6: the per-cell data the tracker reads
from mesh.h (not among the examined sources): opacities, Fleck factor,
per-face boundary tag and next cell, and the geometric distance-to-boundary
function, which also reports the crossed face index. -/
structure Cell where
  op_a : ℚ
  op_s : ℚ
  f : ℚ
  bc : ℕ → BcType
  next_cell : ℕ → ℕ
  distance_to_boundary : Vec3 → Vec3 → ℚ × ℕ

/-- Modelled from the spec §6: the mesh view consumed by the core
(mesh.h is not among the examined sources): resolve a cell id, the owner
rank of a global cell id, and the processor adjacency list
(off-rank id, dense buffer index). -/
structure Mesh where
  cells : ℕ → Cell
  rank_of : ℕ → ℕ
  adjacency : List (ℕ × ℕ)

/-- Abstract model of the machine math and randomness the tracker consumes:
log and exp on doubles, the RNG draw stream (§6: uniform_0_1), the isotropic
angle sampler built from one draw (sampling_functions.h is not among the
examined sources), and the speed of light from constants.h. -/
structure PhysModel where
  log : ℚ → ℚ
  exp : ℚ → ℚ
  draws : ℕ → ℚ
  angleOf : ℚ → Vec3
  c : ℚ

/-- The hard-coded Russian-roulette cutoff fraction of the source
(transport_particle_pass.h line 54: 0.01). -/
def cutoff_fraction : ℚ := 1 / 100

/-- The by-reference accumulators of transport_photon_particle_pass:
next_dt, exit_E, census_E and the per-cell absorbed-energy tally. -/
structure TrkAcc where
  next_dt : ℚ
  exit_E : ℚ
  census_E : ℚ
  rank_abs_E : ℕ → ℚ

/-- Mutable state of one tracker call: the photon, the cached current cell
id, the RNG stream position, and the accumulators. -/
structure TrkState where
  phtn : Photon
  cell_id : ℕ
  rpos : ℕ
  acc : TrkAcc

/-- Distance to scatter, source line 67:
-log(u) / ((1-f)·sigma_a + sigma_s). -/
def distToScatter (P : PhysModel) (M : Mesh) (s : TrkState) : ℚ :=
  -(P.log (P.draws s.rpos)) /
    ((1 - (M.cells s.cell_id).f) * (M.cells s.cell_id).op_a
      + (M.cells s.cell_id).op_s)

/-- Distance to the cell boundary together with the crossed face
(source lines 68-70). -/
def boundaryHit (M : Mesh) (s : TrkState) : ℚ × ℕ :=
  (M.cells s.cell_id).distance_to_boundary s.phtn.pos s.phtn.angle

def distToBoundary (M : Mesh) (s : TrkState) : ℚ := (boundaryHit M s).1

def surfaceCross (M : Mesh) (s : TrkState) : ℕ := (boundaryHit M s).2

/-- Distance to census, source line 71. -/
def distToCensus (s : TrkState) : ℚ := s.phtn.distance_remaining

/-- The event distance, source line 74:
min(dist_to_scatter, min(dist_to_boundary, dist_to_census)). -/
def distToEvent (P : PhysModel) (M : Mesh) (s : TrkState) : ℚ :=
  min (distToScatter P M s) (min (distToBoundary M s) (distToCensus s))

/-- Effectively absorbed energy, source line 77:
E · (1 − exp(−sigma_a·f·d)). -/
def absorbedE (P : PhysModel) (M : Mesh) (s : TrkState) : ℚ :=
  s.phtn.E *
    (1 - P.exp (-((M.cells s.cell_id).op_a * (M.cells s.cell_id).f *
      distToEvent P M s)))

/-- The photon after the energy decrement and the move of one segment
(source lines 78, 83). -/
def phtnAfterMove (P : PhysModel) (M : Mesh) (s : TrkState) : Photon :=
  ({ s.phtn with E := s.phtn.E - absorbedE P M s }).move (distToEvent P M s)

/-- The accumulators after the absorbed-energy deposit of one segment
(source line 80). -/
def accAfterAbsorb (P : PhysModel) (M : Mesh) (s : TrkState) : TrkAcc :=
  let r := upd s.acc.rank_abs_E s.cell_id (s.acc.rank_abs_E s.cell_id + absorbedE P M s)
  { s.acc with rank_abs_E := r }

/-- Which branch of the per-segment dispatch fired; `nofire` is the dead
fall-through of the if/else-if chain. -/
inductive SegChoice
  | cutoff
  | scatter
  | boundary
  | census
  | nofire
deriving DecidableEq

/-- Result of one iteration of the tracker's while loop: continue with a new
state, or terminate with an event. -/
inductive StepRes
  | cont (s : TrkState)
  | done (e : EventType) (s : TrkState)

/-- One iteration of the tracker's while(active) loop, source lines 61-131,
together with the dispatch branch that fired. -/
def trackStep (P : PhysModel) (M : Mesh) (s : TrkState) : StepRes × SegChoice :=
  let cell := M.cells s.cell_id
  let ds := distToScatter P M s
  let db := distToBoundary M s
  let dc := distToCensus s
  let d := distToEvent P M s
  let sc := surfaceCross M s
  let phtn2 := phtnAfterMove P M s
  let acc1 := accAfterAbsorb P M s
  if phtn2.below_cutoff cutoff_fraction then
    let rKill := upd acc1.rank_abs_E s.cell_id (acc1.rank_abs_E s.cell_id + phtn2.E)
    (.done .KILL
      ⟨phtn2.set_dead, s.cell_id, s.rpos + 1, { acc1 with rank_abs_E := rKill }⟩,
     .cutoff)
  else if d = ds then
    (.cont ⟨phtn2.set_angle (P.angleOf (P.draws (s.rpos + 1))), s.cell_id,
            s.rpos + 2, acc1⟩, .scatter)
  else if d = db then
    match cell.bc sc with
    | .ELEMENT =>
        (.cont ⟨phtn2.set_cell (cell.next_cell sc), cell.next_cell sc,
                s.rpos + 1, acc1⟩, .boundary)
    | .PROCESSOR =>
        (.done .PASS ⟨phtn2.set_cell (cell.next_cell sc), s.cell_id,
                      s.rpos + 1, acc1⟩, .boundary)
    | .VACUUM =>
        (.done .EXIT ⟨phtn2, s.cell_id, s.rpos + 1,
                      { acc1 with exit_E := acc1.exit_E + phtn2.E }⟩,
         .boundary)
    | .REFLECT =>
        (.cont ⟨phtn2.reflect sc, s.cell_id, s.rpos + 1, acc1⟩, .boundary)
  else if d = dc then
    (.done .CENSUS
      ⟨(phtn2.set_census_flag true).set_distance_to_census (P.c * s.acc.next_dt),
       s.cell_id, s.rpos + 1,
       { acc1 with census_E := acc1.census_E + phtn2.E }⟩, .census)
  else
    (.cont ⟨phtn2, s.cell_id, s.rpos + 1, acc1⟩, .nofire)

/-- Fuelled iteration of the tracker's while(active) loop; `none` means the
fuel ran out before a terminal event (a model artifact: the C++ loop has no
such bound). -/
def tppLoop (P : PhysModel) (M : Mesh) : ℕ → TrkState → Option (EventType × TrkState)
  | 0, _ => none
  | fuel + 1, s =>
    match trackStep P M s with
    | (.cont s', _) => tppLoop P M fuel s'
    | (.done e s', _) => some (e, s')

/-- The tracker transport_photon_particle_pass (source lines 28-134), fuelled.
The initial state caches the photon's cell (source lines 56-57). -/
def transport_photon_particle_pass (P : PhysModel) (M : Mesh) (fuel : ℕ)
    (phtn : Photon) (rpos : ℕ) (acc : TrkAcc) : Option (EventType × TrkState) :=
  tppLoop P M fuel ⟨phtn, phtn.cell, rpos, acc⟩

/-- Message-buffer lifecycle flag.  Modelled from the spec §3: buffer.h is
not among the examined sources; the four FSM states. -/
inductive BufStatus
  | empty
  | awaiting
  | sent
  | received
deriving DecidableEq

/-- Modelled from the spec §4.1: Buffer<T> of buffer.h, one contiguous
payload plus the lifecycle flag. -/
structure Buffer (α : Type) where
  payload : List α
  status : BufStatus
deriving DecidableEq

/-- A fresh buffer: empty payload, Empty flag. -/
def Buffer.mk0 {α : Type} : Buffer α := ⟨[], .empty⟩

/-- Modelled from the spec §4.1: fill stores the payload, flag unchanged. -/
def Buffer.fill {α : Type} (b : Buffer α) (v : List α) : Buffer α :=
  { b with payload := v }

/-- Modelled from the spec §4.1: reset clears the payload, flag to Empty. -/
def Buffer.reset {α : Type} (_ : Buffer α) : Buffer α := ⟨[], .empty⟩

def Buffer.set_awaiting {α : Type} (b : Buffer α) : Buffer α :=
  { b with status := .awaiting }

def Buffer.set_sent {α : Type} (b : Buffer α) : Buffer α :=
  { b with status := .sent }

def Buffer.set_received {α : Type} (b : Buffer α) : Buffer α :=
  { b with status := .received }

/-- Wire tag for particle batches.  Modelled from the spec §6: constants.h
is not among the examined sources; the value is arbitrary but distinct from
count_tag. -/
def photon_tag : ℕ := 0

/-- Wire tag for completion counts.  Modelled from the spec §6. -/
def count_tag : ℕ := 1

/-- Null-process sentinel for missing tree neighbors.  Modelled from the
spec §4.4 (the proc_null constant of constants.h). -/
def proc_null : ℤ := -1

/-- Parent rank in the completion tree, source lines 186-193:
(rank+1)/2 - 1, and proc_null for rank 0. -/
def parentOf (rank n_rank : ℕ) : ℤ :=
  if rank = 0 then proc_null else ((rank : ℤ) + 1) / 2 - 1

/-- First child in the completion tree, source lines 187-205: 2·rank+1,
proc_null when past the last node. -/
def child1Of (rank n_rank : ℕ) : ℤ :=
  if (rank : ℤ) * 2 + 1 > (n_rank : ℤ) - 1 then proc_null
  else (rank : ℤ) * 2 + 1

/-- Second child in the completion tree, source lines 188-205: child1+1,
proc_null when child1 is past or at the last node. -/
def child2Of (rank n_rank : ℕ) : ℤ :=
  if (rank : ℤ) * 2 + 1 > (n_rank : ℤ) - 1 then proc_null
  else if (rank : ℤ) * 2 + 1 = (n_rank : ℤ) - 1 then proc_null
  else (rank : ℤ) * 2 + 2

/-- A recorded isend call: destination rank, tag, payload. -/
inductive MsgPayload
  | counts (v : List ℕ)
  | photons (v : List Photon)
deriving DecidableEq

structure SentMsg where
  dest : ℤ
  tag : ℕ
  payload : MsgPayload
deriving DecidableEq

/-- Per-step configuration of the driver: physics model, mesh, source
(modelled from the spec: Source.get_photon yields the n-th drawn photon),
rank layout, the Allreduce total n_global (source lines 178-184; the
cross-rank sum is an input of the one-rank model), tunables, tracker fuel,
next_dt, and the census sort key (modelled from the spec: Photon operator<,
a stable key on particle identity). -/
structure DriverCfg where
  P : PhysModel
  M : Mesh
  source : ℕ → Photon
  n_rank : ℕ
  rank : ℕ
  n_local : ℕ
  n_global : ℕ
  batch_size : ℕ
  max_buffer_size : ℕ
  trkFuel : ℕ
  next_dt : ℚ
  censusKey : Photon → ℕ

/-- The mutable state of one rank inside transport_particle_pass: the
accumulators, the parallel event counters (source lines 169-175), the
staging lists and photon buffers, the six count buffers, the census list and
receive stack, the tree counters (source lines 283-288), the RNG position,
the finished flag, and a trace of every isend the rank performed. -/
structure DrvState where
  next_dt : ℚ
  exit_E : ℚ
  census_E : ℚ
  rank_abs_E : ℕ → ℚ
  n_photon_messages : ℕ
  n_photons_sent : ℕ
  n_sends_posted : ℕ
  n_sends_completed : ℕ
  n_receives_posted : ℕ
  n_receives_completed : ℕ
  send_list : ℕ → List Photon
  phtn_send_buffer : ℕ → Buffer Photon
  phtn_recv_buffer : ℕ → Buffer Photon
  c1_recv_buffer : Buffer ℕ
  c2_recv_buffer : Buffer ℕ
  p_recv_buffer : Buffer ℕ
  c1_send_buffer : Buffer ℕ
  c2_send_buffer : Buffer ℕ
  p_send_buffer : Buffer ℕ
  census_list : List Photon
  phtn_recv_stack : List Photon
  tree_count : ℕ
  parent_count : ℕ
  c1_count : ℕ
  c2_count : ℕ
  n_complete : ℕ
  n_local_sourced : ℕ
  rpos : ℕ
  finished : Bool
  sends : List SentMsg

/-- Per-iteration nondeterminism of the message layer: the result of every
request test and the payload a completed receive delivered. -/
structure IterOracle where
  phSendTest : ℕ → Bool
  phRecvTest : ℕ → Bool
  phRecvData : ℕ → List Photon
  c1Test : Bool
  c1Val : ℕ
  c2Test : Bool
  c2Val : ℕ
  pTest : Bool
  pVal : ℕ
  pSendTest : Bool

/-- The state at entry of the main loop, after the setup of source lines
159-298: everything zeroed, then receives posted from the children, the
parent, and every adjacent rank (each post sets the buffer Awaiting and
increments n_receives_posted). -/
def initState (cfg : DriverCfg) : DrvState :=
  let s0 : DrvState :=
    { next_dt := cfg.next_dt, exit_E := 0, census_E := 0,
      rank_abs_E := fun _ => 0,
      n_photon_messages := 0, n_photons_sent := 0, n_sends_posted := 0,
      n_sends_completed := 0, n_receives_posted := 0, n_receives_completed := 0,
      send_list := fun _ => [],
      phtn_send_buffer := fun _ => Buffer.mk0,
      phtn_recv_buffer := fun _ => Buffer.mk0,
      c1_recv_buffer := Buffer.mk0, c2_recv_buffer := Buffer.mk0,
      p_recv_buffer := Buffer.mk0, c1_send_buffer := Buffer.mk0,
      c2_send_buffer := Buffer.mk0, p_send_buffer := Buffer.mk0,
      census_list := [], phtn_recv_stack := [],
      tree_count := 0, parent_count := 0, c1_count := 0, c2_count := 0,
      n_complete := 0, n_local_sourced := 0, rpos := 0,
      finished := false, sends := [] }
  let s1 :=
    if child1Of cfg.rank cfg.n_rank ≠ proc_null then
      { s0 with c1_recv_buffer := s0.c1_recv_buffer.set_awaiting,
                n_receives_posted := s0.n_receives_posted + 1 }
    else s0
  let s2 :=
    if child2Of cfg.rank cfg.n_rank ≠ proc_null then
      { s1 with c2_recv_buffer := s1.c2_recv_buffer.set_awaiting,
                n_receives_posted := s1.n_receives_posted + 1 }
    else s1
  let s3 :=
    if parentOf cfg.rank cfg.n_rank ≠ proc_null then
      { s2 with p_recv_buffer := s2.p_recv_buffer.set_awaiting,
                n_receives_posted := s2.n_receives_posted + 1 }
    else s2
  cfg.M.adjacency.foldl
    (fun s pr =>
      { s with
        phtn_recv_buffer := upd s.phtn_recv_buffer pr.2 ((s.phtn_recv_buffer pr.2).set_awaiting),
        n_receives_posted := s.n_receives_posted + 1 })
    s3

/-- The accumulator view the driver passes by reference into the tracker. -/
def accOf (s : DrvState) : TrkAcc :=
  ⟨s.next_dt, s.exit_E, s.census_E, s.rank_abs_E⟩

/-- Write the tracker's by-reference accumulators and the RNG position back
into the driver state. -/
def applyAcc (s : DrvState) (ts : TrkState) : DrvState :=
  { s with next_dt := ts.acc.next_dt, exit_E := ts.acc.exit_E,
           census_E := ts.acc.census_E, rank_abs_E := ts.acc.rank_abs_E,
           rpos := ts.rpos }

/-- Look a rank up in the adjacency list; absent keys read as a
value-initialized 0, as C++ map operator[] would. -/
def adjLookup (adj : List (ℕ × ℕ)) (r : ℕ) : ℕ :=
  ((adj.find? (fun pr => pr.1 == r)).map Prod.snd).getD 0

/-- The event switch of the batch loop, source lines 322-341. -/
def applyEvent (cfg : DriverCfg) (e : EventType) (ts : TrkState)
    (s : DrvState) : DrvState :=
  match e with
  | .WAIT => s
  | .KILL => { s with n_complete := s.n_complete + 1 }
  | .EXIT => { s with n_complete := s.n_complete + 1 }
  | .CENSUS =>
      { s with census_list := s.census_list ++ [ts.phtn],
               n_complete := s.n_complete + 1 }
  | .PASS =>
      let i_b := adjLookup cfg.M.adjacency (cfg.M.rank_of ts.phtn.cell)
      { s with send_list := upd s.send_list i_b (s.send_list i_b ++ [ts.phtn]) }

/-- The batch tracking loop, source lines 300-344: up to batch_size slots;
each slot takes the top of the receive stack if the stack is non-empty,
otherwise draws a source photon while n_local_sourced < n_local; the photon
is tracked and the event dispatched; a stack photon is popped at the end of
the slot.  `none` only on tracker fuel exhaustion (model artifact). -/
def trackBatch (cfg : DriverCfg) : ℕ → DrvState → Option DrvState
  | 0, s => some s
  | n + 1, s =>
    match s.phtn_recv_stack with
    | p :: rest =>
      match transport_photon_particle_pass cfg.P cfg.M cfg.trkFuel p s.rpos (accOf s) with
      | none => none
      | some (e, ts) =>
        let s1 := applyEvent cfg e ts (applyAcc s ts)
        trackBatch cfg n { s1 with phtn_recv_stack := rest }
    | [] =>
      if s.n_local_sourced < cfg.n_local then
        let p := cfg.source s.n_local_sourced
        let s0 := { s with n_local_sourced := s.n_local_sourced + 1 }
        match transport_photon_particle_pass cfg.P cfg.M cfg.trkFuel p s0.rpos (accOf s0) with
        | none => none
        | some (e, ts) => trackBatch cfg n (applyEvent cfg e ts (applyAcc s0 ts))
      else some s

/-- Photon-send completion test for one neighbor, source lines 357-362:
if the buffer is Sent and the request tests true, reset it and count the
completion. -/
def phSendTestStep (o : IterOracle) (i_b : ℕ) (s : DrvState) : DrvState :=
  if (s.phtn_send_buffer i_b).status = .sent ∧ o.phSendTest i_b = true then
    { s with
      phtn_send_buffer := upd s.phtn_send_buffer i_b ((s.phtn_send_buffer i_b).reset),
      n_sends_completed := s.n_sends_completed + 1 }
  else s

/-- Guard of the photon-send post, source lines 364-365: buffer Empty, the
staging list non-empty, and list at max_buffer_size or source exhausted. -/
abbrev phSendGuard (cfg : DriverCfg) (i_b : ℕ) (s : DrvState) : Prop :=
  (s.phtn_send_buffer i_b).status = .empty ∧ s.send_list i_b ≠ [] ∧
    (cfg.max_buffer_size ≤ (s.send_list i_b).length ∨
      s.n_local_sourced = cfg.n_local)

/-- Photon-send post for one neighbor, source lines 364-380: move
min(list size, max_buffer_size) photons from the head of the staging list
into the buffer, fill, post the isend with the photon tag, count it, and
set the buffer Sent. -/
def phSendPostStep (cfg : DriverCfg) (adj_rank i_b : ℕ) (s : DrvState) : DrvState :=
  if phSendGuard cfg i_b s then
    let n_send := min (s.send_list i_b).length cfg.max_buffer_size
    let send_now := (s.send_list i_b).take n_send
    { s with
      send_list := upd s.send_list i_b ((s.send_list i_b).drop n_send),
      phtn_send_buffer :=
        upd s.phtn_send_buffer i_b (((s.phtn_send_buffer i_b).fill send_now).set_sent),
      n_photons_sent := s.n_photons_sent + n_send,
      n_sends_posted := s.n_sends_posted + 1,
      n_photon_messages := s.n_photon_messages + 1,
      sends := s.sends ++ [⟨(adj_rank : ℤ), photon_tag, .photons send_now⟩] }
  else s

/-- Photon-receive test for one neighbor, source lines 383-397: if the
buffer is Awaiting and the request tests true, push the delivered photons
onto the receive stack in order, reset the buffer, and immediately re-post
the receive. -/
def phRecvStep (o : IterOracle) (i_b : ℕ) (s : DrvState) : DrvState :=
  if (s.phtn_recv_buffer i_b).status = .awaiting ∧ o.phRecvTest i_b = true then
    let receive_list := o.phRecvData i_b
    { s with
      n_receives_completed := s.n_receives_completed + 1,
      phtn_recv_stack := receive_list.reverse ++ s.phtn_recv_stack,
      phtn_recv_buffer :=
        upd s.phtn_recv_buffer i_b
          ((((s.phtn_recv_buffer i_b).fill receive_list).reset).set_awaiting),
      n_receives_posted := s.n_receives_posted + 1 }
  else s

/-- One neighbor of the communication pass, source lines 352-398: send
completion test, then the send post, then the receive test. -/
def processNeighbor (cfg : DriverCfg) (o : IterOracle) (s : DrvState)
    (pr : ℕ × ℕ) : DrvState :=
  phRecvStep o pr.2 (phSendPostStep cfg pr.1 pr.2 (phSendTestStep o pr.2 s))

/-- The communication pass over all adjacent ranks, source lines 349-399. -/
def commPhase (cfg : DriverCfg) (o : IterOracle) (s : DrvState) : DrvState :=
  cfg.M.adjacency.foldl (processNeighbor cfg o) s

/-- Child-1 count receive test, source lines 410-423: on completion the
layer has written the child's value into the buffer; set Received, read it,
add it to tree_count, reset, re-post, set Awaiting. -/
def c1RecvStep (cfg : DriverCfg) (o : IterOracle) (s : DrvState) : DrvState :=
  if s.c1_recv_buffer.status = .awaiting ∧ o.c1Test = true then
    { s with
      n_receives_completed := s.n_receives_completed + 1,
      c1_count := o.c1Val,
      tree_count := s.tree_count + o.c1Val,
      c1_recv_buffer := ((((s.c1_recv_buffer.fill [o.c1Val]).set_received).reset).set_awaiting),
      n_receives_posted := s.n_receives_posted + 1 }
  else s

/-- Child-2 count receive test, source lines 424-437. -/
def c2RecvStep (cfg : DriverCfg) (o : IterOracle) (s : DrvState) : DrvState :=
  if s.c2_recv_buffer.status = .awaiting ∧ o.c2Test = true then
    { s with
      n_receives_completed := s.n_receives_completed + 1,
      c2_count := o.c2Val,
      tree_count := s.tree_count + o.c2Val,
      c2_recv_buffer := ((((s.c2_recv_buffer.fill [o.c2Val]).set_received).reset).set_awaiting),
      n_receives_posted := s.n_receives_posted + 1 }
  else s

/-- Parent count receive test, source lines 440-446: on completion record
parent_count; the receive is not re-posted and the buffer stays Received. -/
def pRecvStep (o : IterOracle) (s : DrvState) : DrvState :=
  if s.p_recv_buffer.status = .awaiting ∧ o.pTest = true then
    { s with
      n_receives_completed := s.n_receives_completed + 1,
      p_recv_buffer := (s.p_recv_buffer.fill [o.pVal]).set_received,
      parent_count := o.pVal }
  else s

/-- Parent send completion test, source lines 449-454. -/
def pSendTestStep (o : IterOracle) (s : DrvState) : DrvState :=
  if s.p_send_buffer.status = .sent ∧ o.pSendTest = true then
    { s with n_sends_completed := s.n_sends_completed + 1,
             p_send_buffer := s.p_send_buffer.reset }
  else s

/-- The tree-message tests of one iteration, source lines 409-454. -/
def treePhase (cfg : DriverCfg) (o : IterOracle) (s : DrvState) : DrvState :=
  pSendTestStep o (pRecvStep o (c2RecvStep cfg o (c1RecvStep cfg o s)))

/-- Roll completed local histories into the tree count, source lines
456-458. -/
def rollup (s : DrvState) : DrvState :=
  { s with tree_count := s.tree_count + s.n_complete, n_complete := 0 }

/-- Guard of the upward count send as the source writes it, line 464:
parent exists, tree_count non-zero, source exhausted, receive stack empty.
(The buffer state of a still-in-flight prior parent send is not part of
the condition.) -/
abbrev upSendGuard (cfg : DriverCfg) (s : DrvState) : Prop :=
  parentOf cfg.rank cfg.n_rank ≠ proc_null ∧ s.tree_count ≠ 0 ∧
    cfg.n_local = s.n_local_sourced ∧ s.phtn_recv_stack = []

/-- The upward count send, source lines 464-471: fill the parent send
buffer with tree_count, post the isend with the count tag, set Sent, and
reset tree_count to 0. -/
def upwardSend (cfg : DriverCfg) (s : DrvState) : DrvState :=
  if upSendGuard cfg s then
    { s with
      p_send_buffer := (s.p_send_buffer.fill [s.tree_count]).set_sent,
      sends := s.sends ++
        [⟨parentOf cfg.rank cfg.n_rank, count_tag, .counts [s.tree_count]⟩],
      n_sends_posted := s.n_sends_posted + 1,
      tree_count := 0 }
  else s

/-- The exit test ending every iteration, source line 474. -/
def setFinished (cfg : DriverCfg) (s : DrvState) : DrvState :=
  { s with finished :=
      decide (s.tree_count = cfg.n_global ∨ s.parent_count = cfg.n_global) }

/-- One iteration of the main transport loop, source lines 300-475. -/
def loopBody (cfg : DriverCfg) (o : IterOracle) (s : DrvState) : Option DrvState :=
  (trackBatch cfg cfg.batch_size s).map (fun s1 =>
    setFinished cfg (upwardSend cfg (rollup (treePhase cfg o (commPhase cfg o s1)))))

/-- The fuelled main transport loop (while !finished, source line 300);
`k` indexes the oracle stream; `none` means the fuel ran out. -/
def workLoop (cfg : DriverCfg) (os : ℕ → IterOracle) :
    ℕ → ℕ → DrvState → Option DrvState
  | 0, _, _ => none
  | fuel + 1, k, s =>
    match loopBody cfg (os k) s with
    | none => none
    | some s' => if s'.finished then some s' else workLoop cfg os fuel (k + 1) s'

/-- Downward broadcast of n_global to the children, source lines 478-499:
for each existing child, complete a still-pending send (the buffer was
never used before this point), fill with n_global, post, wait.  The child
send buffers' flags are never set Sent here, as in the source. -/
def shutdownDown (cfg : DriverCfg) (s : DrvState) : DrvState :=
  let s1 :=
    if child1Of cfg.rank cfg.n_rank ≠ proc_null then
      let sa :=
        if s.c1_send_buffer.status = .sent then
          { s with n_sends_completed := s.n_sends_completed + 1 }
        else s
      { sa with
        c1_send_buffer := sa.c1_send_buffer.fill [cfg.n_global],
        sends := sa.sends ++
          [⟨child1Of cfg.rank cfg.n_rank, count_tag, .counts [cfg.n_global]⟩],
        n_sends_posted := sa.n_sends_posted + 1,
        n_sends_completed := sa.n_sends_completed + 1 }
    else s
  if child2Of cfg.rank cfg.n_rank ≠ proc_null then
    let sb :=
      if s1.c2_send_buffer.status = .sent then
        { s1 with n_sends_completed := s1.n_sends_completed + 1 }
      else s1
    { sb with
      c2_send_buffer := sb.c2_send_buffer.fill [cfg.n_global],
      sends := sb.sends ++
        [⟨child2Of cfg.rank cfg.n_rank, count_tag, .counts [cfg.n_global]⟩],
      n_sends_posted := sb.n_sends_posted + 1,
      n_sends_completed := sb.n_sends_completed + 1 }
  else s1

/-- Wait for a parent send still in flight, source lines 501-505: the wait
completes the request and is counted, but the buffer flag is not reset. -/
def shutdownParentWait (s : DrvState) : DrvState :=
  if s.p_send_buffer.status = .sent then
    { s with n_sends_completed := s.n_sends_completed + 1 }
  else s

/-- The post-barrier one-element upward send, source lines 513-520: fill
the parent send buffer with [1], post, wait.  The flag is whatever it was
before (fill leaves it unchanged). -/
def shutdownParentAck (cfg : DriverCfg) (s : DrvState) : DrvState :=
  if parentOf cfg.rank cfg.n_rank ≠ proc_null then
    { s with
      p_send_buffer := s.p_send_buffer.fill [1],
      sends := s.sends ++ [⟨parentOf cfg.rank cfg.n_rank, count_tag, .counts [1]⟩],
      n_sends_posted := s.n_sends_posted + 1,
      n_sends_completed := s.n_sends_completed + 1 }
  else s

/-- Wait on the still-posted child count receives, source lines 521-528. -/
def shutdownChildRecvWaits (cfg : DriverCfg) (s : DrvState) : DrvState :=
  let s1 :=
    if child1Of cfg.rank cfg.n_rank ≠ proc_null then
      { s with n_receives_completed := s.n_receives_completed + 1 }
    else s
  if child2Of cfg.rank cfg.n_rank ≠ proc_null then
    { s1 with n_receives_completed := s1.n_receives_completed + 1 }
  else s1

/-- The empty-message flush to every neighbor, source lines 531-548: a wait
for a still-pending photon send — which the source does NOT count in
n_sends_completed (line 541) — then an empty isend, posted, waited,
counted. -/
def shutdownPhotonFlush (cfg : DriverCfg) (s : DrvState) : DrvState :=
  cfg.M.adjacency.foldl
    (fun s pr =>
      { s with
        sends := s.sends ++ [⟨(pr.1 : ℤ), photon_tag, .photons []⟩],
        n_sends_posted := s.n_sends_posted + 1,
        n_sends_completed := s.n_sends_completed + 1 })
    s

/-- Wait on every posted photon receive, source lines 551-554. -/
def shutdownRecvWaits (cfg : DriverCfg) (s : DrvState) : DrvState :=
  { s with n_receives_completed :=
      s.n_receives_completed + cfg.M.adjacency.length }

/-- Ordered insertion used to model std::sort of the census list.
Modelled from the spec: Photon operator< (photon.h is not among the
examined sources) is a stable key on particle identity. -/
def insertByKey (k : Photon → ℕ) (p : Photon) : List Photon → List Photon
  | [] => [p]
  | q :: t => if k p ≤ k q then p :: q :: t else q :: insertByKey k p t

def sortCensus (cfg : DriverCfg) (l : List Photon) : List Photon :=
  l.foldr (insertByKey cfg.censusKey) []

/-- The full shutdown handshake after the work loop, source lines 478-559:
downward broadcast, parent-send wait, barrier, post-barrier upward ack,
child receive waits, photon flush, photon receive waits, barrier, census
sort. -/
def shutdown (cfg : DriverCfg) (s : DrvState) : DrvState :=
  let s6 :=
    shutdownRecvWaits cfg
      (shutdownPhotonFlush cfg
        (shutdownChildRecvWaits cfg
          (shutdownParentAck cfg
            (shutdownParentWait (shutdownDown cfg s)))))
  { s6 with census_list := sortCensus cfg s6.census_list }

/-- The whole transport step of one rank, source lines 138-576: setup,
fuelled work loop, shutdown.  The final state carries the diagnostics the
source publishes into IMC_State at lines 564-573. -/
def transport_particle_pass (cfg : DriverCfg) (os : ℕ → IterOracle)
    (fuel : ℕ) : Option DrvState :=
  (workLoop cfg os fuel 0 (initState cfg)).map (shutdown cfg)

/- ===================== helper lemmas ===================== -/

lemma opt_eq_some_getD {α : Type} (o : Option α) (d : α) (h : o.isSome = true) :
    o = some (o.getD d) := by
  cases o <;> simp_all

/-- The accumulators the cutoff (KILL) branch of a segment produces:
the absorbed-energy deposit, plus the remaining energy deposited into the
current cell (source lines 86-91). -/
def killAcc (P : PhysModel) (M : Mesh) (s : TrkState) : TrkAcc :=
  let acc1 := accAfterAbsorb P M s
  let r := upd acc1.rank_abs_E s.cell_id (acc1.rank_abs_E s.cell_id + (phtnAfterMove P M s).E)
  { acc1 with rank_abs_E := r }

lemma trackStep_cutoff (P : PhysModel) (M : Mesh) (s : TrkState)
    (h : (phtnAfterMove P M s).below_cutoff cutoff_fraction = true) :
    trackStep P M s =
      (.done .KILL ⟨(phtnAfterMove P M s).set_dead, s.cell_id, s.rpos + 1, killAcc P M s⟩,
       .cutoff) := by
  simp only [trackStep, killAcc, h, if_true]

/-- Every terminal result of one tracker segment carries one of the four
real events; WAIT is never produced. -/
lemma trackStep_done_event (P : PhysModel) (M : Mesh) (s : TrkState)
    (e : EventType) (s' : TrkState) (c : SegChoice)
    (h : trackStep P M s = (.done e s', c)) :
    e = .KILL ∨ e = .EXIT ∨ e = .CENSUS ∨ e = .PASS := by
  simp only [trackStep] at h
  split at h
  · simp_all
  · split at h
    · simp_all
    · split at h
      · split at h <;> simp_all
      · split at h <;> simp_all

lemma trackStep_cont_acc (P : PhysModel) (M : Mesh) (s : TrkState)
    (s' : TrkState) (c : SegChoice)
    (h : trackStep P M s = (.cont s', c)) :
    s'.acc.next_dt = s.acc.next_dt ∧ s'.acc.exit_E = s.acc.exit_E ∧
      s'.acc.census_E = s.acc.census_E := by
  simp only [trackStep] at h
  split at h
  · simp_all
  · split at h
    · simp only [Prod.mk.injEq, StepRes.cont.injEq] at h
      obtain ⟨hs, -⟩ := h
      subst hs
      simp [accAfterAbsorb]
    · split at h
      · split at h
        all_goals simp only [Prod.mk.injEq, StepRes.cont.injEq, reduceCtorEq,
          false_and] at h
        all_goals obtain ⟨hs, -⟩ := h
        all_goals subst hs
        all_goals simp [accAfterAbsorb]
      · split at h
        · simp_all
        · simp only [Prod.mk.injEq, StepRes.cont.injEq] at h
          obtain ⟨hs, -⟩ := h
          subst hs
          simp [accAfterAbsorb]

lemma trackStep_done_acc (P : PhysModel) (M : Mesh) (s : TrkState)
    (e : EventType) (s' : TrkState) (c : SegChoice)
    (h : trackStep P M s = (.done e s', c)) :
    s'.acc.next_dt = s.acc.next_dt ∧
      s'.acc.exit_E = s.acc.exit_E + (if e = .EXIT then s'.phtn.E else 0) ∧
      s'.acc.census_E = s.acc.census_E + (if e = .CENSUS then s'.phtn.E else 0) := by
  simp only [trackStep] at h
  split at h
  · simp only [Prod.mk.injEq, StepRes.done.injEq] at h
    obtain ⟨⟨he, hs⟩, -⟩ := h
    subst he; subst hs
    simp [killAcc, accAfterAbsorb, Photon.set_dead]
  · split at h
    · simp_all
    · split at h
      · split at h
        all_goals simp only [Prod.mk.injEq, StepRes.done.injEq, reduceCtorEq,
          false_and] at h
        all_goals obtain ⟨⟨he, hs⟩, -⟩ := h
        all_goals subst he
        all_goals subst hs
        · simp [accAfterAbsorb, Photon.set_cell]
        · simp [accAfterAbsorb]
      · split at h
        · simp only [Prod.mk.injEq, StepRes.done.injEq] at h
          obtain ⟨⟨he, hs⟩, -⟩ := h
          subst he; subst hs
          simp [accAfterAbsorb, Photon.set_census_flag, Photon.set_distance_to_census]
        · simp_all

lemma tppLoop_event (P : PhysModel) (M : Mesh) :
    ∀ fuel s e s', tppLoop P M fuel s = some (e, s') →
      e = .KILL ∨ e = .EXIT ∨ e = .CENSUS ∨ e = .PASS := by
  intro fuel
  induction fuel with
  | zero => intro s e s' h; simp [tppLoop] at h
  | succ n ih =>
    intro s e s' h
    rw [tppLoop] at h
    rcases htr : trackStep P M s with ⟨r, c⟩
    rw [htr] at h
    cases r with
    | cont s2 => exact ih s2 e s' h
    | done e0 s2 =>
      simp only [Option.some.injEq, Prod.mk.injEq] at h
      obtain ⟨he, -⟩ := h
      subst he
      exact trackStep_done_event P M s e0 s2 c htr

lemma tppLoop_acc (P : PhysModel) (M : Mesh) :
    ∀ fuel s e s', tppLoop P M fuel s = some (e, s') →
      s'.acc.next_dt = s.acc.next_dt ∧
        s'.acc.exit_E = s.acc.exit_E + (if e = .EXIT then s'.phtn.E else 0) ∧
        s'.acc.census_E = s.acc.census_E + (if e = .CENSUS then s'.phtn.E else 0) := by
  intro fuel
  induction fuel with
  | zero => intro s e s' h; simp [tppLoop] at h
  | succ n ih =>
    intro s e s' h
    rw [tppLoop] at h
    rcases htr : trackStep P M s with ⟨r, c⟩
    rw [htr] at h
    cases r with
    | cont s2 =>
      obtain ⟨ha, hb, hc⟩ := trackStep_cont_acc P M s s2 c htr
      obtain ⟨ia, ib, ic⟩ := ih s2 e s' h
      exact ⟨ia.trans ha, by rw [ib, hb], by rw [ic, hc]⟩
    | done e0 s2 =>
      simp only [Option.some.injEq, Prod.mk.injEq] at h
      obtain ⟨he, hs⟩ := h
      subst he; subst hs
      exact trackStep_done_acc P M s e0 s2 c htr

/-- C9: a terminating call of `transport_photon_particle_pass` returns one
of KILL, EXIT, CENSUS, PASS and never WAIT, so the WAIT arm of the driver's
event switch (source lines 323-325) is unreachable. -/
theorem claim_C9 (P : PhysModel) (M : Mesh) (fuel : ℕ) (phtn : Photon)
    (rpos : ℕ) (acc : TrkAcc) (e : EventType) (ts : TrkState)
    (h : transport_photon_particle_pass P M fuel phtn rpos acc = some (e, ts)) :
    (e = .KILL ∨ e = .EXIT ∨ e = .CENSUS ∨ e = .PASS) ∧ e ≠ .WAIT := by
  have hd := tppLoop_event P M fuel _ e ts h
  refine ⟨hd, ?_⟩
  rcases hd with h | h | h | h <;> (subst h; intro hc; cases hc)

/-- C10: across one call of `transport_photon_particle_pass`, next_dt is
never modified; exit_E changes only when the event is EXIT, and then by
exactly the photon's remaining energy at termination; census_E changes only
when the event is CENSUS, likewise by the remaining energy. -/
theorem claim_C10 (P : PhysModel) (M : Mesh) (fuel : ℕ) (phtn : Photon)
    (rpos : ℕ) (acc : TrkAcc) (e : EventType) (ts : TrkState)
    (h : transport_photon_particle_pass P M fuel phtn rpos acc = some (e, ts)) :
    ts.acc.next_dt = acc.next_dt ∧
      ts.acc.exit_E = acc.exit_E + (if e = .EXIT then ts.phtn.E else 0) ∧
      ts.acc.census_E = acc.census_E + (if e = .CENSUS then ts.phtn.E else 0) :=
  tppLoop_acc P M fuel _ e ts h

/-- C6: in any tracker segment, once the photon's post-decrement,
post-move energy is below cutoff_fraction · E_initial, the segment
terminates with KILL: the remaining energy is deposited into rank_abs_E of
the current cell (killAcc), the photon is marked dead, and the call returns
KILL — regardless of the three event distances, so the cutoff takes
priority over the scatter/boundary/census dispatch. -/
theorem claim_C6 (P : PhysModel) (M : Mesh) (s : TrkState)
    (h : (phtnAfterMove P M s).below_cutoff cutoff_fraction = true) :
    trackStep P M s =
      (.done .KILL ⟨(phtnAfterMove P M s).set_dead, s.cell_id, s.rpos + 1,
        killAcc P M s⟩, .cutoff) ∧
    (∀ fuel, tppLoop P M (fuel + 1) s =
      some (.KILL, ⟨(phtnAfterMove P M s).set_dead, s.cell_id, s.rpos + 1,
        killAcc P M s⟩)) ∧
    (killAcc P M s).rank_abs_E s.cell_id =
      (accAfterAbsorb P M s).rank_abs_E s.cell_id + (phtnAfterMove P M s).E ∧
    ((phtnAfterMove P M s).set_dead).alive = false := by
  have ht := trackStep_cutoff P M s h
  refine ⟨ht, fun fuel => ?_, ?_, rfl⟩
  · rw [tppLoop, ht]
  · simp [killAcc, upd]

lemma min3_scatter_iff (ds db dc : ℚ) :
    min ds (min db dc) = ds ↔ ds ≤ db ∧ ds ≤ dc := by
  constructor
  · intro h
    have h1 := min_eq_left_iff.mp h
    exact ⟨le_trans h1 (min_le_left _ _), le_trans h1 (min_le_right _ _)⟩
  · rintro ⟨h1, h2⟩
    exact min_eq_left (le_min h1 h2)

lemma min3_boundary_iff (ds db dc : ℚ) :
    (¬ min ds (min db dc) = ds ∧ min ds (min db dc) = db) ↔
      db < ds ∧ db ≤ dc := by
  constructor
  · rintro ⟨h1, h2⟩
    have hnle : ¬ ds ≤ min db dc := fun hle => h1 (min_eq_left hle)
    have hmlt : min db dc < ds := not_le.mp hnle
    have hmr : min ds (min db dc) = min db dc := min_eq_right hmlt.le
    have hmdb : min db dc = db := by rw [← hmr, h2]
    exact ⟨hmdb ▸ hmlt, min_eq_left_iff.mp hmdb⟩
  · rintro ⟨hlt, hle⟩
    have hm : min db dc = db := min_eq_left hle
    have hd : min ds (min db dc) = db := by rw [hm]; exact min_eq_right hlt.le
    refine ⟨fun heq => ?_, hd⟩
    have : db = ds := by rw [← hd, heq]
    exact (ne_of_lt hlt) this

lemma min3_census_iff (ds db dc : ℚ) :
    (¬ min ds (min db dc) = ds ∧ ¬ min ds (min db dc) = db) ↔
      dc < ds ∧ dc < db := by
  constructor
  · rintro ⟨h1, h2⟩
    have hnle : ¬ ds ≤ min db dc := fun hle => h1 (min_eq_left hle)
    have hmlt : min db dc < ds := not_le.mp hnle
    have hmr : min ds (min db dc) = min db dc := min_eq_right hmlt.le
    have hdcdb : dc < db := by
      by_contra hc
      push_neg at hc
      exact h2 (by rw [hmr, min_eq_left hc])
    have hmdc : min db dc = dc := min_eq_right hdcdb.le
    exact ⟨hmdc ▸ hmlt, hdcdb⟩
  · rintro ⟨h1, h2⟩
    have hm : min db dc = dc := min_eq_right h2.le
    have hd : min ds (min db dc) = dc := by rw [hm]; exact min_eq_right h1.le
    constructor
    · intro heq
      have : dc = ds := by rw [← hd, heq]
      exact (ne_of_lt h1) this
    · intro heq
      have : dc = db := by rw [← hd, heq]
      exact (ne_of_lt h2) this

/-- The dispatch branch of a non-cutoff segment follows the if/else-if
chain of source lines 96-130 on the three distances. -/
lemma trackStep_choice (P : PhysModel) (M : Mesh) (s : TrkState)
    (h : ¬ (phtnAfterMove P M s).below_cutoff cutoff_fraction = true) :
    (trackStep P M s).2 =
      if distToEvent P M s = distToScatter P M s then .scatter
      else if distToEvent P M s = distToBoundary M s then .boundary
      else if distToEvent P M s = distToCensus s then .census
      else .nofire := by
  simp only [trackStep]
  rw [if_neg h]
  split
  · rfl
  · split
    · rcases hbc : (M.cells s.cell_id).bc (surfaceCross M s) <;> simp [hbc]
    · split <;> rfl

/-- C7: in a segment not cut off by Russian roulette, the event distance is
the minimum of the scatter, boundary and census distances, and the dispatch
picks the branch achieving the minimum with ties resolved in the order
scatter, then boundary, then census. -/
theorem claim_C7 (P : PhysModel) (M : Mesh) (s : TrkState)
    (h : (phtnAfterMove P M s).below_cutoff cutoff_fraction = false) :
    distToEvent P M s =
      min (distToScatter P M s) (min (distToBoundary M s) (distToCensus s)) ∧
    ((trackStep P M s).2 = .scatter ↔
      distToScatter P M s ≤ distToBoundary M s ∧
      distToScatter P M s ≤ distToCensus s) ∧
    ((trackStep P M s).2 = .boundary ↔
      distToBoundary M s < distToScatter P M s ∧
      distToBoundary M s ≤ distToCensus s) ∧
    ((trackStep P M s).2 = .census ↔
      distToCensus s < distToScatter P M s ∧
      distToCensus s < distToBoundary M s) := by
  have h' : ¬ (phtnAfterMove P M s).below_cutoff cutoff_fraction = true := by
    simp [h]
  have hc := trackStep_choice P M s h'
  have hde : distToEvent P M s =
      min (distToScatter P M s) (min (distToBoundary M s) (distToCensus s)) := rfl
  refine ⟨hde, ?_, ?_, ?_⟩ <;> rw [hc]
  · split_ifs with h1 h2 h3
    · exact iff_of_true (by first | rfl | trivial) ((min3_scatter_iff _ _ _).mp (hde ▸ h1))
    all_goals
      exact iff_of_false (by intro hx; first | exact hx | cases hx)
        (fun hx => h1 (by rw [hde]; exact (min3_scatter_iff _ _ _).mpr hx))
  · split_ifs with h1 h2 h3
    · exact iff_of_false (by intro hx; first | exact hx | cases hx)
        (fun hx => ((min3_boundary_iff _ _ _).mpr hx).1 (hde ▸ h1))
    · exact iff_of_true (by first | rfl | trivial) ((min3_boundary_iff _ _ _).mp
        ⟨fun hm => h1 (by rw [hde]; exact hm), hde ▸ h2⟩)
    all_goals
      exact iff_of_false (by intro hx; first | exact hx | cases hx)
        (fun hx => h2 (by rw [hde]; exact ((min3_boundary_iff _ _ _).mpr hx).2))
  · split_ifs with h1 h2 h3
    · exact iff_of_false (by intro hx; first | exact hx | cases hx)
        (fun hx => ((min3_census_iff _ _ _).mpr hx).1 (hde ▸ h1))
    · exact iff_of_false (by intro hx; first | exact hx | cases hx)
        (fun hx => ((min3_census_iff _ _ _).mpr hx).2 (hde ▸ h2))
    · exact iff_of_true (by first | rfl | trivial) ((min3_census_iff _ _ _).mp
        ⟨fun hm => h1 (by rw [hde]; exact hm), fun hm => h2 (by rw [hde]; exact hm)⟩)
    · have hcc := (min3_census_iff _ _ _).mp
        ⟨fun hm => h1 (by rw [hde]; exact hm), fun hm => h2 (by rw [hde]; exact hm)⟩
      exact absurd (by
        rw [hde, min_eq_right hcc.2.le]
        exact min_eq_right hcc.1.le) h3

/- ===================== work-loop exit (C4) ===================== -/

lemma loopBody_finished (cfg : DriverCfg) (o : IterOracle) (s s' : DrvState)
    (h : loopBody cfg o s = some s') :
    s'.finished =
      decide (s'.tree_count = cfg.n_global ∨ s'.parent_count = cfg.n_global) := by
  unfold loopBody at h
  rcases Option.map_eq_some'.mp h with ⟨s1, -, heq⟩
  subst heq
  rfl

lemma workLoop_exit (cfg : DriverCfg) (os : ℕ → IterOracle) :
    ∀ fuel k s s', workLoop cfg os fuel k s = some s' →
      s'.tree_count = cfg.n_global ∨ s'.parent_count = cfg.n_global := by
  intro fuel
  induction fuel with
  | zero => intro k s s' h; simp [workLoop] at h
  | succ n ih =>
    intro k s s' h
    rw [workLoop] at h
    cases hb : loopBody cfg (os k) s with
    | none => rw [hb] at h; cases h
    | some s1 =>
      rw [hb] at h
      dsimp only at h
      by_cases hf : s1.finished = true
      · rw [if_pos hf] at h
        injection h with h
        subst h
        exact of_decide_eq_true ((loopBody_finished cfg (os k) s s1 hb) ▸ hf)
      · rw [if_neg hf] at h
        exact ih (k + 1) s1 s' h

/-- C4: the work loop exits exactly through the end-of-iteration test of
source line 474.  First part: any normal exit of the fuelled loop lands in a
state with tree_count = n_global or parent_count = n_global — the rank never
leaves the loop otherwise.  Second part: whenever an iteration's post-state
satisfies the test, the loop stops with exactly that state. -/
theorem claim_C4 (cfg : DriverCfg) (os : ℕ → IterOracle) :
    (∀ fuel k s s', workLoop cfg os fuel k s = some s' →
      s'.tree_count = cfg.n_global ∨ s'.parent_count = cfg.n_global) ∧
    (∀ fuel k s s', loopBody cfg (os k) s = some s' →
      (s'.tree_count = cfg.n_global ∨ s'.parent_count = cfg.n_global) →
      workLoop cfg os (fuel + 1) k s = some s') := by
  refine ⟨workLoop_exit cfg os, ?_⟩
  intro fuel k s s' hb hp
  have hf : s'.finished = true := by
    rw [loopBody_finished cfg (os k) s s' hb]
    exact decide_eq_true hp
  rw [workLoop, hb]
  dsimp only
  rw [if_pos hf]

/- ===================== photon-send policy (C5) ===================== -/

/-- C5: in the per-neighbor communication pass (which first tests the
pending send, then decides the post, then services the receive), a photon
send is posted if and only if the send buffer is Empty, the staging list is
non-empty, and the staging list has reached max_buffer_size or the source
is exhausted; when posted, exactly min(staging length, max_buffer_size)
photons move from the head of the staging list into the buffer, the buffer
transitions to Sent, and an asynchronous photon-tag send to the neighbor
rank is recorded. -/
theorem claim_C5 (cfg : DriverCfg) (o : IterOracle) (adj_rank i_b : ℕ)
    (s : DrvState) :
    (processNeighbor cfg o s (adj_rank, i_b) =
      phRecvStep o i_b (phSendPostStep cfg adj_rank i_b (phSendTestStep o i_b s))) ∧
    ((phSendPostStep cfg adj_rank i_b s).n_sends_posted = s.n_sends_posted + 1 ↔
      phSendGuard cfg i_b s) ∧
    (¬ phSendGuard cfg i_b s → phSendPostStep cfg adj_rank i_b s = s) ∧
    (phSendGuard cfg i_b s →
      phSendPostStep cfg adj_rank i_b s =
        { s with
          send_list := upd s.send_list i_b
            ((s.send_list i_b).drop (min (s.send_list i_b).length cfg.max_buffer_size)),
          phtn_send_buffer := upd s.phtn_send_buffer i_b
            ⟨(s.send_list i_b).take (min (s.send_list i_b).length cfg.max_buffer_size),
             .sent⟩,
          n_photons_sent := s.n_photons_sent +
            min (s.send_list i_b).length cfg.max_buffer_size,
          n_sends_posted := s.n_sends_posted + 1,
          n_photon_messages := s.n_photon_messages + 1,
          sends := s.sends ++ [⟨(adj_rank : ℤ), photon_tag,
            .photons ((s.send_list i_b).take
              (min (s.send_list i_b).length cfg.max_buffer_size))⟩] }) := by
  refine ⟨rfl, ?_, ?_, ?_⟩
  · constructor
    · intro hpost
      by_contra hg
      rw [phSendPostStep, if_neg hg] at hpost
      omega
    · intro hg
      rw [phSendPostStep, if_pos hg]
  · intro hg
    rw [phSendPostStep, if_neg hg]
  · intro hg
    rw [phSendPostStep, if_pos hg]
    rfl

/- ===================== batch tracking (C8) ===================== -/

/-- The per-event dispatch as the claim words it: PASS enqueues the photon
into the staging list of the owning rank of its new cell; KILL, EXIT and
CENSUS each increment n_complete, and CENSUS also appends the photon to the
census list. -/
def DispatchSpec (cfg : DriverCfg) (e : EventType) (ph : Photon)
    (s0 s1 : DrvState) : Prop :=
  match e with
  | .WAIT => s1 = s0
  | .KILL => s1 = { s0 with n_complete := s0.n_complete + 1 }
  | .EXIT => s1 = { s0 with n_complete := s0.n_complete + 1 }
  | .CENSUS =>
      s1 = { s0 with
             census_list := s0.census_list ++ [ph],
             n_complete := s0.n_complete + 1 }
  | .PASS =>
      s1 = { s0 with
             send_list := upd s0.send_list
               (adjLookup cfg.M.adjacency (cfg.M.rank_of ph.cell))
               (s0.send_list (adjLookup cfg.M.adjacency (cfg.M.rank_of ph.cell)) ++ [ph]) }

/-- One tracking slot as the claim words it: take the top of the receive
stack when it is non-empty (popping it), otherwise draw a new source photon
only while n_local_sourced < n_local (incrementing n_local_sourced); track
the photon, write the accumulators back, and dispatch by the event. -/
inductive SlotStep (cfg : DriverCfg) : DrvState → DrvState → Prop where
  | fromStack : ∀ s p rest e ts s1,
      s.phtn_recv_stack = p :: rest →
      transport_photon_particle_pass cfg.P cfg.M cfg.trkFuel p s.rpos (accOf s) =
        some (e, ts) →
      DispatchSpec cfg e ts.phtn (applyAcc s ts) s1 →
      SlotStep cfg s { s1 with phtn_recv_stack := rest }
  | fromSource : ∀ s e ts s1,
      s.phtn_recv_stack = [] →
      s.n_local_sourced < cfg.n_local →
      transport_photon_particle_pass cfg.P cfg.M cfg.trkFuel
        (cfg.source s.n_local_sourced) s.rpos (accOf s) = some (e, ts) →
      DispatchSpec cfg e ts.phtn
        (applyAcc { s with n_local_sourced := s.n_local_sourced + 1 } ts) s1 →
      SlotStep cfg s s1

/-- n-fold composition of a relation. -/
inductive Iterates {α : Type} (R : α → α → Prop) : ℕ → α → α → Prop where
  | zero : ∀ a, Iterates R 0 a a
  | succ : ∀ n a b c, R a b → Iterates R n b c → Iterates R (n + 1) a c

lemma applyEvent_dispatchSpec (cfg : DriverCfg) (e : EventType) (ts : TrkState)
    (s0 : DrvState) : DispatchSpec cfg e ts.phtn s0 (applyEvent cfg e ts s0) := by
  cases e <;> simp [DispatchSpec, applyEvent]

lemma trackBatch_slots (cfg : DriverCfg) :
    ∀ n s s', trackBatch cfg n s = some s' →
      ∃ m, m ≤ n ∧ Iterates (SlotStep cfg) m s s' := by
  intro n
  induction n with
  | zero =>
    intro s s' h
    simp only [trackBatch, Option.some.injEq] at h
    subst h
    exact ⟨0, Nat.le_refl 0, Iterates.zero s⟩
  | succ n ih =>
    intro s s' h
    rw [trackBatch] at h
    cases hst : s.phtn_recv_stack with
    | cons p rest =>
      rw [hst] at h
      dsimp only at h
      cases htp : transport_photon_particle_pass cfg.P cfg.M cfg.trkFuel p s.rpos (accOf s) with
      | none => rw [htp] at h; cases h
      | some r =>
        rcases r with ⟨e, ts⟩
        rw [htp] at h
        dsimp only at h
        rcases ih _ _ h with ⟨m, hm, hit⟩
        refine ⟨m + 1, Nat.succ_le_succ hm, Iterates.succ m s _ s' ?_ hit⟩
        exact SlotStep.fromStack s p rest e ts (applyEvent cfg e ts (applyAcc s ts))
          hst htp (applyEvent_dispatchSpec cfg e ts (applyAcc s ts))
    | nil =>
      rw [hst] at h
      dsimp only at h
      by_cases hsrc : s.n_local_sourced < cfg.n_local
      · rw [if_pos hsrc] at h
        have hrec : ({ s with
              phtn_recv_stack := ([] : List Photon),
              n_local_sourced := s.n_local_sourced + 1 } : DrvState) =
            { s with n_local_sourced := s.n_local_sourced + 1 } := by
          rw [← hst]
        rw [hrec] at h
        cases htp : transport_photon_particle_pass cfg.P cfg.M cfg.trkFuel
            (cfg.source s.n_local_sourced) s.rpos
            (accOf { s with n_local_sourced := s.n_local_sourced + 1 }) with
        | none => rw [htp] at h; cases h
        | some r =>
          rcases r with ⟨e, ts⟩
          rw [htp] at h
          dsimp only at h
          rcases ih _ _ h with ⟨m, hm, hit⟩
          refine ⟨m + 1, Nat.succ_le_succ hm, Iterates.succ m s _ s' ?_ hit⟩
          exact SlotStep.fromSource s e ts _ hst hsrc htp
            (applyEvent_dispatchSpec cfg e ts
              (applyAcc { s with n_local_sourced := s.n_local_sourced + 1 } ts))
      · rw [if_neg hsrc] at h
        injection h with h
        subst h
        exact ⟨0, Nat.zero_le _, Iterates.zero s⟩

/-- C8: one batch pass of the work loop performs at most batch_size
tracking slots, each slot obeying the stack-over-source preference and the
per-event dispatch of `SlotStep` and `DispatchSpec`. -/
theorem claim_C8 (cfg : DriverCfg) (s s' : DrvState)
    (h : trackBatch cfg cfg.batch_size s = some s') :
    ∃ m, m ≤ cfg.batch_size ∧ Iterates (SlotStep cfg) m s s' :=
  trackBatch_slots cfg cfg.batch_size s s' h

/- ============== concrete models for runs and witnesses ============== -/

/-- An abstract physics model for concrete runs: log u = -100 (so the
scatter distance is 100), exp x = 1 (so no energy is absorbed). -/
def Pwit : PhysModel :=
  ⟨fun _ => -100, fun _ => 1, fun _ => 1 / 2, fun _ => ⟨1, 0, 0⟩, 10⟩

/-- As Pwit but exp x = 0: a segment absorbs the photon's whole energy, so
the Russian-roulette cutoff fires at once. -/
def Pkill : PhysModel := { Pwit with exp := fun _ => 0 }

/-- A cell whose every face is a PROCESSOR boundary at distance 1 leading
to global cell 100. -/
def cellPass : Cell :=
  ⟨0, 1, 0, fun _ => .PROCESSOR, fun _ => 100, fun _ _ => (1, 0)⟩

/-- As cellPass but with VACUUM faces. -/
def cellVac : Cell := { cellPass with bc := fun _ => .VACUUM }

/-- A mesh of cellPass cells, every cell owned by rank 0, one adjacent
rank 0 at buffer index 0. -/
def meshPass : Mesh := ⟨fun _ => cellPass, fun _ => 0, [(0, 0)]⟩

/-- As meshPass but with VACUUM cells. -/
def meshVac : Mesh := { meshPass with cells := fun _ => cellVac }

/-- As meshPass but with no adjacent ranks. -/
def meshNoAdj : Mesh := { meshPass with adjacency := [] }

/-- A unit-energy photon in cell 0 heading along x with 50 to census. -/
def phtnWit : Photon := ⟨0, ⟨0, 0, 0⟩, ⟨1, 0, 0⟩, 1, 1, 50, false, true⟩

def accWit : TrkAcc := ⟨3, 0, 0, fun _ => 0⟩

/-- A tracker start state over phtnWit. -/
def sWit : TrkState := ⟨phtnWit, 0, 0, accWit⟩

def dfltTrk : EventType × TrkState := (.WAIT, sWit)

/-- An oracle on which no request test succeeds. -/
def oQuiet : IterOracle :=
  ⟨fun _ => false, fun _ => false, fun _ => [], false, 0, false, 0, false, 0, false⟩

def osQuiet : ℕ → IterOracle := fun _ => oQuiet

/-- C1 run: rank 1 of 4 (parent 0, child rank 3), no local work, no
neighbors, n_global 10; the child reports 3, then 4 while the first upward
send is still in flight. -/
def cfgC1 : DriverCfg :=
  { P := Pwit, M := meshNoAdj, source := fun _ => phtnWit,
    n_rank := 4, rank := 1, n_local := 0, n_global := 10,
    batch_size := 1, max_buffer_size := 1, trkFuel := 2,
    next_dt := 3, censusKey := fun _ => 0 }

def osC1 : ℕ → IterOracle := fun k =>
  if k = 0 then { oQuiet with c1Test := true, c1Val := 3 }
  else { oQuiet with c1Test := true, c1Val := 4 }

/-- C2 run: rank 1 of 2 (parent 0, childless, no neighbors), one local
photon that is killed at once, n_global 1; the upward send of count 1 is
posted, never tests complete in the loop, and the parent then broadcasts
n_global = 1 down. -/
def cfgC2 : DriverCfg :=
  { P := Pkill, M := meshNoAdj, source := fun _ => phtnWit,
    n_rank := 2, rank := 1, n_local := 1, n_global := 1,
    batch_size := 1, max_buffer_size := 1, trkFuel := 2,
    next_dt := 3, censusKey := fun _ => 0 }

def osC2 : ℕ → IterOracle := fun k =>
  if k = 1 then { oQuiet with pTest := true, pVal := 1 } else oQuiet

/-- C3 run: rank 1 of 2 with neighbor rank 0, one local photon that passes
to rank 0; the photon send never tests complete during the loop, and the
parent broadcasts n_global = 1 in the second iteration. -/
def cfgC3 : DriverCfg :=
  { P := Pwit, M := meshPass, source := fun _ => phtnWit,
    n_rank := 2, rank := 1, n_local := 1, n_global := 1,
    batch_size := 1, max_buffer_size := 1, trkFuel := 2,
    next_dt := 3, censusKey := fun _ => 0 }

def osC3 : ℕ → IterOracle := fun k =>
  if k = 1 then { oQuiet with pTest := true, pVal := 1 } else oQuiet

/-- A trivial single-rank run: no parent, no children, no neighbors, no
local work, n_global 0; the first exit test already sees
tree_count = 0 = n_global. -/
def cfgTriv : DriverCfg :=
  { P := Pwit, M := meshNoAdj, source := fun _ => phtnWit,
    n_rank := 1, rank := 0, n_local := 0, n_global := 0,
    batch_size := 1, max_buffer_size := 1, trkFuel := 2,
    next_dt := 3, censusKey := fun _ => 0 }

def dfltDrv : DrvState := initState cfgTriv

/-- The state of the C1 run after one full loop iteration and the (empty)
batch phase of the second iteration. -/
def c1s2 : DrvState :=
  ((loopBody cfgC1 (osC1 0) (initState cfgC1)).bind
    (fun s1 => trackBatch cfgC1 cfgC1.batch_size s1)).getD dfltDrv

/-- The state of the C1 run at the upward-send decision point of the second
iteration (source line 464), right after the roll-up. -/
def c1mid : DrvState :=
  rollup (treePhase cfgC1 (osC1 1) (commPhase cfgC1 (osC1 1) c1s2))

/-- The exit state of the C2 run's work loop. -/
def c2exit : DrvState := (workLoop cfgC2 osC2 2 0 (initState cfgC2)).getD dfltDrv

/-- The C2 run's state at the post-barrier fill point of source line 515:
after the downward broadcast (a no-op for a childless rank) and the
completing-but-not-resetting parent-send wait of lines 501-505. -/
def c2atFill : DrvState := shutdownParentWait (shutdownDown cfgC2 c2exit)

set_option maxHeartbeats 2000000 in
/-- C1: the upward-send guard of source line 464 omits the "no prior parent
send in flight" conjunct its own comment (lines 461-463) and the spec
require.  In the concrete two-iteration run below, reached from the initial
state by the loop body itself, the roll-up state of iteration 2 still holds
the first send ([3], flag Sent, zero send completions), the code's guard
holds nevertheless, and the upward-send section refills the in-flight buffer
with [4] and posts a second send. -/
theorem claim_C1 :
    (loopBody cfgC1 (osC1 0) (initState cfgC1)).bind
        (fun s1 => trackBatch cfgC1 cfgC1.batch_size s1) = some c1s2 ∧
    c1mid.p_send_buffer = ⟨[3], .sent⟩ ∧
    c1mid.n_sends_posted = 1 ∧
    c1mid.n_sends_completed = 0 ∧
    upSendGuard cfgC1 c1mid ∧
    (upwardSend cfgC1 c1mid).p_send_buffer = ⟨[4], .sent⟩ ∧
    (upwardSend cfgC1 c1mid).n_sends_posted = 2 ∧
    (upwardSend cfgC1 c1mid).n_sends_completed = 0 := by
  refine ⟨?_, ?_, ?_, ?_, ?_, ?_, ?_, ?_⟩ <;>
    norm_num [c1s2, c1mid, loopBody, trackBatch, commPhase, processNeighbor,
      phSendTestStep, phSendPostStep, phSendGuard, phRecvStep, treePhase,
      c1RecvStep, c2RecvStep, pRecvStep, pSendTestStep, rollup, upwardSend,
      upSendGuard, setFinished, initState, applyEvent, applyAcc, accOf,
      adjLookup, upd, Buffer.mk0, Buffer.fill, Buffer.reset,
      Buffer.set_awaiting, Buffer.set_sent, Buffer.set_received, parentOf,
      child1Of, child2Of, proc_null, photon_tag, count_tag,
      transport_photon_particle_pass, tppLoop, trackStep, distToScatter,
      distToBoundary, distToCensus, distToEvent, boundaryHit, surfaceCross,
      absorbedE, phtnAfterMove, accAfterAbsorb, killAcc, Photon.below_cutoff,
      cutoff_fraction, Photon.move, Photon.set_cell, Photon.set_dead,
      cfgC1, osC1, oQuiet, Pwit, meshNoAdj, meshPass, cellPass, phtnWit] <;>
    simp

/-- C2 counterexample: the claim says the parent-count send buffer is only
ever filled when Empty, including at the final post-barrier one-element
send.  In this benign run (one local photon killed, one upward send posted
in the loop, parent_count = n_global received afterwards), the wait of
source lines 501-505 completes the upward send without resetting the flag,
so at the fill of line 515 the buffer's flag is still Sent — and the fill
happens anyway, leaving ⟨[1], Sent⟩. -/
theorem claim_C2_counterexample :
    workLoop cfgC2 osC2 2 0 (initState cfgC2) = some c2exit ∧
    c2atFill.p_send_buffer.status = .sent ∧
    parentOf cfgC2.rank cfgC2.n_rank ≠ proc_null ∧
    (shutdownParentAck cfgC2 c2atFill).p_send_buffer = ⟨[1], .sent⟩ := by
  refine ⟨?_, ?_, ?_, ?_⟩ <;>
    norm_num [c2exit, c2atFill, workLoop, loopBody, trackBatch, commPhase,
      processNeighbor, phSendTestStep, phSendPostStep, phSendGuard,
      phRecvStep, treePhase, c1RecvStep, c2RecvStep, pRecvStep, pSendTestStep,
      rollup, upwardSend, upSendGuard, setFinished, initState,
      shutdownDown, shutdownParentWait, shutdownParentAck, applyEvent,
      applyAcc, accOf, adjLookup, upd, Buffer.mk0, Buffer.fill, Buffer.reset,
      Buffer.set_awaiting, Buffer.set_sent, Buffer.set_received, parentOf,
      child1Of, child2Of, proc_null, photon_tag, count_tag,
      transport_photon_particle_pass, tppLoop, trackStep, distToScatter,
      distToBoundary, distToCensus, distToEvent, boundaryHit, surfaceCross,
      absorbedE, phtnAfterMove, accAfterAbsorb, killAcc, Photon.below_cutoff,
      cutoff_fraction, Photon.move, Photon.set_cell, Photon.set_dead,
      cfgC2, osC2, oQuiet, Pkill, Pwit, meshNoAdj, meshPass, cellPass,
      phtnWit] <;>
    simp

/-- C2 amended: during the transport step the photon send buffers are
filled only when Empty, the photon receive buffers are reset only on a
completed receive, the count receive buffers and the parent send buffer are
reset only on a completed test — but the parent-count send buffer is NOT
fill-guarded: the in-loop upward send fills it whenever the line-464 guard
holds regardless of its flag, the final post-barrier send fills it
unconditionally when a parent exists, and the preceding wait does not reset
the flag. -/
theorem claim_C2 (cfg : DriverCfg) (o : IterOracle) (adj_rank i_b : ℕ)
    (s : DrvState) :
    ((phSendTestStep o i_b s).phtn_send_buffer i_b ≠ s.phtn_send_buffer i_b →
      (s.phtn_send_buffer i_b).status = .sent ∧ o.phSendTest i_b = true) ∧
    ((phSendPostStep cfg adj_rank i_b s).phtn_send_buffer i_b ≠ s.phtn_send_buffer i_b →
      (s.phtn_send_buffer i_b).status = .empty) ∧
    ((phRecvStep o i_b s).phtn_recv_buffer i_b ≠ s.phtn_recv_buffer i_b →
      (s.phtn_recv_buffer i_b).status = .awaiting ∧ o.phRecvTest i_b = true) ∧
    ((c1RecvStep cfg o s).c1_recv_buffer ≠ s.c1_recv_buffer →
      s.c1_recv_buffer.status = .awaiting ∧ o.c1Test = true) ∧
    ((c2RecvStep cfg o s).c2_recv_buffer ≠ s.c2_recv_buffer →
      s.c2_recv_buffer.status = .awaiting ∧ o.c2Test = true) ∧
    ((pRecvStep o s).p_recv_buffer ≠ s.p_recv_buffer →
      s.p_recv_buffer.status = .awaiting ∧ o.pTest = true) ∧
    ((pSendTestStep o s).p_send_buffer ≠ s.p_send_buffer →
      s.p_send_buffer.status = .sent ∧ o.pSendTest = true) ∧
    (upSendGuard cfg s → (upwardSend cfg s).p_send_buffer = ⟨[s.tree_count], .sent⟩) ∧
    (parentOf cfg.rank cfg.n_rank ≠ proc_null →
      (shutdownParentAck cfg s).p_send_buffer = s.p_send_buffer.fill [1]) ∧
    (shutdownParentWait s).p_send_buffer = s.p_send_buffer := by
  refine ⟨?_, ?_, ?_, ?_, ?_, ?_, ?_, ?_, ?_, ?_⟩
  · intro hne
    by_cases hg : (s.phtn_send_buffer i_b).status = .sent ∧ o.phSendTest i_b = true
    · exact hg
    · rw [phSendTestStep, if_neg hg] at hne
      exact absurd rfl hne
  · intro hne
    by_cases hg : phSendGuard cfg i_b s
    · exact hg.1
    · rw [phSendPostStep, if_neg hg] at hne
      exact absurd rfl hne
  · intro hne
    by_cases hg : (s.phtn_recv_buffer i_b).status = .awaiting ∧ o.phRecvTest i_b = true
    · exact hg
    · rw [phRecvStep, if_neg hg] at hne
      exact absurd rfl hne
  · intro hne
    by_cases hg : s.c1_recv_buffer.status = .awaiting ∧ o.c1Test = true
    · exact hg
    · rw [c1RecvStep, if_neg hg] at hne
      exact absurd rfl hne
  · intro hne
    by_cases hg : s.c2_recv_buffer.status = .awaiting ∧ o.c2Test = true
    · exact hg
    · rw [c2RecvStep, if_neg hg] at hne
      exact absurd rfl hne
  · intro hne
    by_cases hg : s.p_recv_buffer.status = .awaiting ∧ o.pTest = true
    · exact hg
    · rw [pRecvStep, if_neg hg] at hne
      exact absurd rfl hne
  · intro hne
    by_cases hg : s.p_send_buffer.status = .sent ∧ o.pSendTest = true
    · exact hg
    · rw [pSendTestStep, if_neg hg] at hne
      exact absurd rfl hne
  · intro hg
    rw [upwardSend, if_pos hg]
    rfl
  · intro hp
    rw [shutdownParentAck, if_pos hp]
  · rw [shutdownParentWait]
    split <;> rfl

/-- C3: at step exit the source's diagnostics are meant to satisfy
n_sends_posted = n_sends_completed and n_receives_posted =
n_receives_completed, but the wait for a still-pending photon send at
source line 541 does not increment n_sends_completed.  In this two-rank run
(one photon passed to the neighbor, its send still in flight at loop exit,
the parent broadcasting n_global = 1), the step exits with 3 sends posted
but only 2 completed, while the receive counters balance at 2. -/
theorem claim_C3 :
    (transport_particle_pass cfgC3 osC3 2).map
      (fun s => (s.n_sends_posted, s.n_sends_completed,
                 s.n_receives_posted, s.n_receives_completed)) =
    some (3, 2, 2, 2) := by
  norm_num [transport_particle_pass, workLoop, loopBody, trackBatch, commPhase,
    processNeighbor, phSendTestStep, phSendPostStep, phSendGuard, phRecvStep,
    treePhase, c1RecvStep, c2RecvStep, pRecvStep, pSendTestStep, rollup,
    upwardSend, upSendGuard, setFinished, initState, shutdown, shutdownDown,
    shutdownParentWait, shutdownParentAck, shutdownChildRecvWaits,
    shutdownPhotonFlush, shutdownRecvWaits, sortCensus, insertByKey, applyEvent,
    applyAcc, accOf, adjLookup, upd, Buffer.mk0, Buffer.fill, Buffer.reset,
    Buffer.set_awaiting, Buffer.set_sent, Buffer.set_received, parentOf,
    child1Of, child2Of, proc_null, photon_tag, count_tag,
    transport_photon_particle_pass, tppLoop, trackStep, distToScatter,
    distToBoundary, distToCensus, distToEvent, boundaryHit, surfaceCross,
    absorbedE, phtnAfterMove, accAfterAbsorb, killAcc, Photon.below_cutoff,
    cutoff_fraction, Photon.move, Photon.set_cell, Photon.set_dead,
    Photon.set_angle, Photon.set_census_flag, Photon.set_distance_to_census,
    Photon.reflect, cfgC3, osC3, oQuiet, Pwit, Pkill, meshPass, meshNoAdj,
    cellPass, cellVac, meshVac, phtnWit, accWit, sWit]
  simp

/- ===================== witnesses ===================== -/

/-- Witness for C6: with full per-segment absorption (Pkill), the unit
photon drops below the cutoff in its first segment and the call kills it. -/
theorem claim_C6_witness :
    (tppLoop Pkill meshPass 1 sWit).map Prod.fst = some .KILL := by
  have h := claim_C6 Pkill meshPass sWit (by
    norm_num [phtnAfterMove, absorbedE, distToEvent, distToScatter,
      distToBoundary, distToCensus, boundaryHit, Photon.move,
      Photon.below_cutoff, cutoff_fraction, Pkill, Pwit, meshPass, cellPass,
      sWit, phtnWit, accWit])
  rw [h.2.1 0]
  rfl

/-- Witness for C7: with scatter distance 100, boundary distance 1 and
census distance 50, the segment dispatches the boundary branch. -/
theorem claim_C7_witness :
    (trackStep Pwit meshPass sWit).2 = .boundary :=
  (claim_C7 Pwit meshPass sWit (by
    norm_num [phtnAfterMove, absorbedE, distToEvent, distToScatter,
      distToBoundary, distToCensus, boundaryHit, Photon.move,
      Photon.below_cutoff, cutoff_fraction, Pwit, meshPass, cellPass,
      sWit, phtnWit, accWit])).2.2.1.mpr
    ⟨by
      norm_num [distToScatter, distToBoundary, boundaryHit, Pwit, meshPass,
        cellPass, sWit, phtnWit],
     by
      norm_num [distToBoundary, distToCensus, boundaryHit, Pwit, meshPass,
        cellPass, sWit, phtnWit]⟩

/-- Witness for C8: tracking the one local photon of the C2 configuration
performs exactly one slot within the batch bound. -/
theorem claim_C8_witness :
    ∃ m, m ≤ cfgC2.batch_size ∧
      Iterates (SlotStep cfgC2) m (initState cfgC2)
        ((trackBatch cfgC2 cfgC2.batch_size (initState cfgC2)).getD dfltDrv) :=
  claim_C8 cfgC2 (initState cfgC2) _
    (opt_eq_some_getD _ dfltDrv (by
      norm_num [trackBatch, initState, transport_photon_particle_pass, tppLoop,
        trackStep, distToScatter, distToBoundary, distToCensus, distToEvent,
        boundaryHit, surfaceCross, absorbedE, phtnAfterMove, accAfterAbsorb,
        killAcc, Photon.below_cutoff, cutoff_fraction, Photon.move,
        Photon.set_cell, Photon.set_dead, applyEvent, applyAcc, accOf,
        adjLookup, upd, Buffer.mk0, Buffer.set_awaiting, parentOf, child1Of,
        child2Of, proc_null, cfgC2, Pkill, Pwit, meshNoAdj, meshPass, cellPass,
        phtnWit]))

/-- Witness for C9: the PASS run terminates and its event is not WAIT. -/
theorem claim_C9_witness :
    ((transport_photon_particle_pass Pwit meshPass 2 phtnWit 0 accWit).getD dfltTrk).1 ≠
      .WAIT := by
  have hs : (transport_photon_particle_pass Pwit meshPass 2 phtnWit 0 accWit).isSome = true := by
    norm_num [transport_photon_particle_pass, tppLoop, trackStep, distToScatter,
      distToBoundary, distToCensus, distToEvent, boundaryHit, surfaceCross,
      absorbedE, phtnAfterMove, accAfterAbsorb, killAcc, Photon.below_cutoff,
      cutoff_fraction, Photon.move, Photon.set_cell, Pwit, meshPass, cellPass,
      phtnWit, accWit]
  have h := opt_eq_some_getD _ dfltTrk hs
  have h2 : transport_photon_particle_pass Pwit meshPass 2 phtnWit 0 accWit =
      some (((transport_photon_particle_pass Pwit meshPass 2 phtnWit 0 accWit).getD dfltTrk).1,
            ((transport_photon_particle_pass Pwit meshPass 2 phtnWit 0 accWit).getD dfltTrk).2) := by
    rw [Prod.mk.eta]
    exact h
  exact (claim_C9 Pwit meshPass 2 phtnWit 0 accWit
    ((transport_photon_particle_pass Pwit meshPass 2 phtnWit 0 accWit).getD dfltTrk).1
    ((transport_photon_particle_pass Pwit meshPass 2 phtnWit 0 accWit).getD dfltTrk).2 h2).2

/-- Witness for C10: the vacuum-exit run leaves next_dt untouched, adds the
photon's remaining energy to exit_E exactly when the event is EXIT, and
leaves census_E alone. -/
theorem claim_C10_witness :
    ((transport_photon_particle_pass Pwit meshVac 2 phtnWit 0 accWit).getD dfltTrk).2.acc.next_dt =
        accWit.next_dt ∧
    ((transport_photon_particle_pass Pwit meshVac 2 phtnWit 0 accWit).getD dfltTrk).2.acc.exit_E =
        accWit.exit_E +
          (if ((transport_photon_particle_pass Pwit meshVac 2 phtnWit 0 accWit).getD dfltTrk).1 = .EXIT then
            ((transport_photon_particle_pass Pwit meshVac 2 phtnWit 0 accWit).getD dfltTrk).2.phtn.E
           else 0) ∧
    ((transport_photon_particle_pass Pwit meshVac 2 phtnWit 0 accWit).getD dfltTrk).2.acc.census_E =
        accWit.census_E +
          (if ((transport_photon_particle_pass Pwit meshVac 2 phtnWit 0 accWit).getD dfltTrk).1 = .CENSUS then
            ((transport_photon_particle_pass Pwit meshVac 2 phtnWit 0 accWit).getD dfltTrk).2.phtn.E
           else 0) := by
  have hs : (transport_photon_particle_pass Pwit meshVac 2 phtnWit 0 accWit).isSome = true := by
    norm_num [transport_photon_particle_pass, tppLoop, trackStep, distToScatter,
      distToBoundary, distToCensus, distToEvent, boundaryHit, surfaceCross,
      absorbedE, phtnAfterMove, accAfterAbsorb, killAcc, Photon.below_cutoff,
      cutoff_fraction, Photon.move, Photon.set_cell, Pwit, meshVac, cellVac,
      cellPass, phtnWit, accWit]
  have h := opt_eq_some_getD _ dfltTrk hs
  have h2 : transport_photon_particle_pass Pwit meshVac 2 phtnWit 0 accWit =
      some (((transport_photon_particle_pass Pwit meshVac 2 phtnWit 0 accWit).getD dfltTrk).1,
            ((transport_photon_particle_pass Pwit meshVac 2 phtnWit 0 accWit).getD dfltTrk).2) := by
    rw [Prod.mk.eta]
    exact h
  exact claim_C10 Pwit meshVac 2 phtnWit 0 accWit
    ((transport_photon_particle_pass Pwit meshVac 2 phtnWit 0 accWit).getD dfltTrk).1
    ((transport_photon_particle_pass Pwit meshVac 2 phtnWit 0 accWit).getD dfltTrk).2 h2

end Branson
